import Mathlib

/-!
Verification of the spatial-overlap core of the congressional-map generator.

The embedding follows `src/core/map_generator.py`. The external geometry
library (shapely, via geopandas) is modelled as a capability record
`GeoEngine` exposing exactly the three operations the code calls on
geometry objects: `intersects`, `intersection` and `area`. Areas and
ratios are modelled as exact rationals. Python raises `ZeroDivisionError`
on float division by zero, so the per-county computation is embedded in
`Except`; the exception aborts the whole loop, as in Python. The
hard-coded county selection of `scripts/extract_exact_boundaries.py` and
`scripts/identify_counties.py` is embedded as well.
-/

namespace MapGen

/-- The duck-typed geometry operations the code calls on shapely objects:
`a.intersects(b)`, `a.intersection(b)`, `a.area`. -/
structure GeoEngine (ρ : Type) where
  intersects : ρ → ρ → Bool
  intersection : ρ → ρ → ρ
  area : ρ → ℚ

/-- A county row of the TIGER county table, with the attributes
`analyze_counties` reads: `GEOID`, `NAME`, `STATEFP` and the geometry. -/
structure County (ρ : Type) where
  GEOID : String
  NAME : String
  STATEFP : String
  geometry : ρ
deriving DecidableEq

/-- The `county_info` dict built per intersecting county at
`map_generator.py` lines 150-158. -/
structure CountyInfo (ρ : Type) where
  GEOID : String
  NAME : String
  STATEFP : String
  geometry : ρ
  coverage_ratio : ℚ
  is_full : Bool
  area_sq_km : ℚ
deriving DecidableEq

/-- The per-county entry of the report built by `_save_county_report`
(lines 201-210). -/
structure ReportCounty where
  name : String
  geoid : String
  coverage_ratio : ℚ
  type : String
  area_sq_km : ℚ
deriving DecidableEq

/-- The report dict built by `_save_county_report` (lines 196-211). -/
structure Report where
  district : String
  total_counties : Nat
  full_counties : Nat
  partial_counties : Nat
  counties : List ReportCounty
deriving DecidableEq

/-- Python's round-half-to-even on an exact rational. -/
def round_half_even (q : ℚ) : ℤ :=
  let f := ⌊q⌋
  let frac := q - (f : ℚ)
  if frac < 1/2 then f
  else if 1/2 < frac then f + 1
  else if f % 2 = 0 then f else f + 1

/-- Python's `round(q, ndigits)` on an exact rational. -/
def round_to (q : ℚ) (ndigits : Nat) : ℚ :=
  (round_half_even (q * (10 : ℚ) ^ ndigits) : ℚ) / (10 : ℚ) ^ ndigits

/-- The body of the `for idx, county in state_counties.iterrows()` loop of
`analyze_counties` (lines 136-159): a county is appended to
`intersecting_counties` exactly when `county_geom.intersects(district_geom)`;
the coverage ratio is `intersection.area / county_geom.area` and
`is_full = coverage_ratio > 0.95`. Python float division by zero raises
`ZeroDivisionError`, which aborts the loop, hence the `Except`. -/
def analyzeLoop (E : GeoEngine ρ) (district_geom : ρ) :
    List (County ρ) → Except String (List (CountyInfo ρ))
  | [] => Except.ok []
  | county :: rest =>
    if E.intersects county.geometry district_geom then
      let inter := E.intersection county.geometry district_geom
      let county_area := E.area county.geometry
      let intersection_area := E.area inter
      if county_area = 0 then
        Except.error "ZeroDivisionError: float division by zero"
      else
        let coverage_ratio := intersection_area / county_area
        let is_full := decide ((95 : ℚ) / 100 < coverage_ratio)
        match analyzeLoop E district_geom rest with
        | Except.ok tail =>
          Except.ok ({ GEOID := county.GEOID
                       NAME := county.NAME
                       STATEFP := county.STATEFP
                       geometry := county.geometry
                       coverage_ratio := coverage_ratio
                       is_full := is_full
                       area_sq_km := county_area * 111000 ^ 2 } :: tail)
        | Except.error e => Except.error e
    else
      analyzeLoop E district_geom rest

/-- Line 162: `intersecting_counties.sort(key=lambda x: x['coverage_ratio'],
reverse=True)`. Python's sort is stable, also with `reverse=True`, so it is
a stable merge sort under the boolean order "ratio of the left argument is
at least the ratio of the right". -/
def sortCounties (l : List (CountyInfo ρ)) : List (CountyInfo ρ) :=
  l.mergeSort (fun a b => decide (b.coverage_ratio ≤ a.coverage_ratio))

/-- `analyze_counties` (lines 116-192) restricted to its algorithmic
content: filter the county table to the district's state (line 127), run
the intersection loop (lines 136-159), sort by coverage ratio descending
(line 162). -/
def analyze_counties (E : GeoEngine ρ) (state_fips : String) (district_geom : ρ)
    (counties_gdf : List (County ρ)) : Except String (List (CountyInfo ρ)) :=
  match analyzeLoop E district_geom
      (counties_gdf.filter (fun c => c.STATEFP == state_fips)) with
  | Except.ok l => Except.ok (sortCounties l)
  | Except.error e => Except.error e

/-- The report entry built for one county dict (lines 202-208):
`coverage_ratio` is rounded to 4 decimal places, the label is taken from
the previously computed `is_full` flag. -/
def reportEntry (c : CountyInfo ρ) : ReportCounty :=
  { name := c.NAME
    geoid := c.GEOID
    coverage_ratio := round_to c.coverage_ratio 4
    type := if c.is_full then "full" else "partial"
    area_sq_km := round_to c.area_sq_km 2 }

/-- `_save_county_report` (lines 194-214) minus the file write: the report
dict with its counts and per-county entries. It takes no threshold, checks
nothing, and has no failure path. -/
def save_county_report (district_code : String) (counties : List (CountyInfo ρ)) :
    Report :=
  { district := district_code
    total_counties := counties.length
    full_counties := (counties.filter (fun c => c.is_full)).length
    partial_counties := (counties.filter (fun c => !c.is_full)).length
    counties := counties.map reportEntry }

/-- The hard-coded county list of `scripts/extract_exact_boundaries.py`
lines 140-144 (the same ten names as `scripts/identify_counties.py`). -/
def KY06_COUNTIES : List String :=
  ["Anderson", "Bourbon", "Clark", "Fayette",
   "Franklin", "Harrison", "Jessamine",
   "Nicholas", "Scott", "Woodford"]

/-- A GeoJSON feature as read by `extract_exact_counties`: the `NAME`
property and the geometry. -/
structure Feature (ρ : Type) where
  NAME : String
  geometry : ρ
deriving DecidableEq

/-- The selection loop of `extract_exact_counties`
(`scripts/extract_exact_boundaries.py` lines 146-157): a state county
feature is kept exactly when its `NAME` is in the hard-coded list. -/
def extract_exact_counties (features : List (Feature ρ)) : List (Feature ρ) :=
  features.filter (fun f => KY06_COUNTIES.contains f.NAME)

/-- `identify_ky06_counties` (`scripts/identify_counties.py` lines 5-33):
returns a fixed list. -/
def identify_ky06_counties : List String :=
  ["Anderson", "Bourbon", "Clark", "Fayette", "Franklin",
   "Harrison", "Jessamine", "Nicholas", "Scott", "Woodford"]

/-- The classification rule as the spec states it (section 4.2): "full"
exactly when `coverage_ratio > full_threshold`, for a caller-supplied
threshold. Compared against the code, whose threshold is the literal
`0.95` at line 148. -/
def classify_spec (full_threshold : ℚ) (coverage_ratio : ℚ) : Bool :=
  decide (full_threshold < coverage_ratio)

/-- The report builder as the spec states it (sections 4.2 and 7): signal
`ThresholdOutOfRange` at report-build time when the threshold is not in
(0, 1], before any record is classified. Compared against
`save_county_report`, which takes no threshold and never signals. -/
def build_report_spec (district_code : String) (records : List (CountyInfo ρ))
    (full_threshold : ℚ) : Except String Report :=
  if full_threshold ≤ 0 ∨ 1 < full_threshold then
    Except.error "ThresholdOutOfRange"
  else
    Except.ok (save_county_report district_code records)

/-- The record `analyzeLoop` builds for one intersecting county, written
as a function of the county row: used to characterise the loop's output. -/
def mkInfo (E : GeoEngine ρ) (district_geom : ρ) (c : County ρ) : CountyInfo ρ :=
  { GEOID := c.GEOID
    NAME := c.NAME
    STATEFP := c.STATEFP
    geometry := c.geometry
    coverage_ratio := E.area (E.intersection c.geometry district_geom) / E.area c.geometry
    is_full := decide ((95 : ℚ) / 100 <
      E.area (E.intersection c.geometry district_geom) / E.area c.geometry)
    area_sq_km := E.area c.geometry * 111000 ^ 2 }

/-- A successful pass of the loop keeps exactly the counties whose
geometry intersects the district, each contributing its `mkInfo` record,
in input order. -/
theorem analyzeLoop_ok (E : GeoEngine ρ) (d : ρ) (l : List (County ρ))
    (r : List (CountyInfo ρ)) (h : analyzeLoop E d l = Except.ok r) :
    r = (l.filter (fun c => E.intersects c.geometry d)).map (mkInfo E d) := by
  induction l generalizing r with
  | nil =>
    simp only [analyzeLoop, Except.ok.injEq] at h
    simp [← h]
  | cons c t ih =>
    by_cases hi : E.intersects c.geometry d
    · by_cases hz : E.area c.geometry = 0
      · simp [analyzeLoop, hi, hz] at h
      · simp only [analyzeLoop, hi, if_true, hz, if_false] at h
        match ht : analyzeLoop E d t with
        | Except.ok tail =>
          rw [ht] at h
          simp only [Except.ok.injEq] at h
          simp [← h, List.filter, hi, mkInfo, ih tail ht]
        | Except.error e =>
          rw [ht] at h
          simp at h
    · simp only [analyzeLoop, hi] at h
      simp [List.filter, hi, ih r h]

/-- The only error the loop ever produces is the division-by-zero error. -/
theorem analyzeLoop_error (E : GeoEngine ρ) (d : ρ) (l : List (County ρ))
    (e : String) (h : analyzeLoop E d l = Except.error e) :
    e = "ZeroDivisionError: float division by zero" := by
  induction l with
  | nil => simp [analyzeLoop] at h
  | cons c t ih =>
    by_cases hi : E.intersects c.geometry d
    · by_cases hz : E.area c.geometry = 0
      · simp [analyzeLoop, hi, hz] at h
        exact h.symm
      · simp only [analyzeLoop, hi, if_true, hz, if_false] at h
        match ht : analyzeLoop E d t with
        | Except.ok tail => rw [ht] at h; simp at h
        | Except.error e2 => rw [ht] at h; simp at h; exact ih (h ▸ ht)
    · simp only [analyzeLoop, hi] at h
      exact ih h

/-- When the loop succeeds, every intersecting county it saw had nonzero
area (otherwise the run would have aborted). -/
theorem analyzeLoop_ok_area (E : GeoEngine ρ) (d : ρ) (l : List (County ρ))
    (r : List (CountyInfo ρ)) (h : analyzeLoop E d l = Except.ok r) :
    ∀ c ∈ l, E.intersects c.geometry d = true → E.area c.geometry ≠ 0 := by
  induction l generalizing r with
  | nil => intro c hc; simp at hc
  | cons a t ih =>
    intro c hc hci
    by_cases hi : E.intersects a.geometry d
    · by_cases hz : E.area a.geometry = 0
      · simp [analyzeLoop, hi, hz] at h
      · simp only [analyzeLoop, hi, if_true, hz, if_false] at h
        match ht : analyzeLoop E d t with
        | Except.ok tail =>
          rcases List.mem_cons.mp hc with hc1 | hc2
          · exact hc1 ▸ hz
          · exact ih tail ht c hc2 hci
        | Except.error e => rw [ht] at h; simp at h
    · simp only [analyzeLoop, hi] at h
      rcases List.mem_cons.mp hc with hc1 | hc2
      · rw [hc1] at hci; rw [hci] at hi; simp at hi
      · exact ih r h c hc2 hci

/-- Transitivity of the boolean comparator used by the sort. -/
theorem countiesLe_trans (a b c : CountyInfo ρ)
    (h1 : decide (b.coverage_ratio ≤ a.coverage_ratio) = true)
    (h2 : decide (c.coverage_ratio ≤ b.coverage_ratio) = true) :
    decide (c.coverage_ratio ≤ a.coverage_ratio) = true := by
  simp only [decide_eq_true_iff] at h1 h2 ⊢
  exact le_trans h2 h1

/-- Totality of the boolean comparator used by the sort. -/
theorem countiesLe_total (a b : CountyInfo ρ) :
    (decide (b.coverage_ratio ≤ a.coverage_ratio) ||
     decide (a.coverage_ratio ≤ b.coverage_ratio)) = true := by
  simp only [Bool.or_eq_true, decide_eq_true_iff]
  exact le_total b.coverage_ratio a.coverage_ratio

/-- The sort permutes its input. -/
theorem sortCounties_perm (l : List (CountyInfo ρ)) : (sortCounties l).Perm l :=
  List.mergeSort_perm l _

/-- The sort output is descending in coverage ratio. -/
theorem sortCounties_sorted (l : List (CountyInfo ρ)) :
    (sortCounties l).Pairwise (fun a b => b.coverage_ratio ≤ a.coverage_ratio) := by
  have h := @List.sorted_mergeSort (CountyInfo ρ)
    (fun a b => decide (b.coverage_ratio ≤ a.coverage_ratio))
    (countiesLe_trans) (countiesLe_total) l
  simpa [sortCounties] using h

/-- Stability: a pair already in weakly descending order (ties included)
keeps its relative order in the output. -/
theorem sortCounties_stable (l : List (CountyInfo ρ)) (a b : CountyInfo ρ)
    (hab : [a, b].Sublist l) (hle : b.coverage_ratio ≤ a.coverage_ratio) :
    [a, b].Sublist (sortCounties l) :=
  List.pair_sublist_mergeSort countiesLe_trans countiesLe_total
    (by simpa using hle) hab

/-- A successful `analyze_counties` run returns a permutation of one
`mkInfo` record per state-matching, intersecting candidate county. -/
theorem analyze_counties_ok (E : GeoEngine ρ) (fips : String) (d : ρ)
    (cs : List (County ρ)) (r : List (CountyInfo ρ))
    (h : analyze_counties E fips d cs = Except.ok r) :
    r.Perm (((cs.filter (fun c => c.STATEFP == fips)).filter
      (fun c => E.intersects c.geometry d)).map (mkInfo E d)) := by
  unfold analyze_counties at h
  match hl : analyzeLoop E d (cs.filter (fun c => c.STATEFP == fips)) with
  | Except.ok l =>
    rw [hl] at h
    simp only [Except.ok.injEq] at h
    rw [← h, ← analyzeLoop_ok E d _ l hl]
    exact sortCounties_perm l
  | Except.error e => rw [hl] at h; simp at h

/-- Every record of a successful run is the `mkInfo` record of a
state-matching, intersecting candidate county with nonzero area. -/
theorem analyze_counties_mem (E : GeoEngine ρ) (fips : String) (d : ρ)
    (cs : List (County ρ)) (r : List (CountyInfo ρ))
    (h : analyze_counties E fips d cs = Except.ok r)
    (i : CountyInfo ρ) (hi : i ∈ r) :
    ∃ c ∈ cs, (c.STATEFP == fips) = true ∧ E.intersects c.geometry d = true ∧
      E.area c.geometry ≠ 0 ∧ i = mkInfo E d c := by
  have hperm := analyze_counties_ok E fips d cs r h
  have hmem := hperm.mem_iff.mp hi
  rcases List.mem_map.mp hmem with ⟨c, hc, hci⟩
  rcases List.mem_filter.mp hc with ⟨hc2, hcint⟩
  rcases List.mem_filter.mp hc2 with ⟨hcs, hcfips⟩
  refine ⟨c, hcs, hcfips, hcint, ?_, hci.symm⟩
  unfold analyze_counties at h
  match hl : analyzeLoop E d (cs.filter (fun c => c.STATEFP == fips)) with
  | Except.ok l =>
    exact analyzeLoop_ok_area E d _ l hl c (List.mem_filter.mpr ⟨hcs, hcfips⟩) hcint
  | Except.error e => rw [hl] at h; simp at h

/-- Engine of the boundary-touch run: the county region 1 has area 5; its
intersection with the district (region 2) has area 0, as shapely computes
for two regions sharing only an edge, while `intersects` is still true. -/
def touchEngine : GeoEngine Nat where
  intersects := fun _ _ => true
  intersection := fun _ _ => 2
  area := fun g => if g = 1 then 5 else 0

/-- The single candidate county row used by the concrete runs. -/
def touchCounty : County Nat :=
  { GEOID := "21001", NAME := "Adair", STATEFP := "21", geometry := 1 }

/-- The record the boundary-touch run produces: coverage ratio 0. -/
def touchInfo : CountyInfo Nat :=
  { GEOID := "21001", NAME := "Adair", STATEFP := "21", geometry := 1,
    coverage_ratio := 0, is_full := false, area_sq_km := 61605000000 }

/-- The boundary-touch run produces a record for the zero-area county. -/
theorem touch_run :
    analyze_counties touchEngine "21" 0 [touchCounty] = Except.ok [touchInfo] := by
  have h1 : analyzeLoop touchEngine 0 [touchCounty] = Except.ok [touchInfo] := by
    simp [analyzeLoop, touchEngine, touchCounty, touchInfo]
    norm_num
  have h0 : List.filter (fun c => c.STATEFP == "21") [touchCounty] = [touchCounty] := by
    simp [touchCounty]
  unfold analyze_counties
  rw [h0, h1]
  simp [sortCounties]

/-- Engine of the partial-coverage run: county area 5, intersection area 3,
so the coverage ratio is 3/5. -/
def partEngine : GeoEngine Nat where
  intersects := fun _ _ => true
  intersection := fun _ _ => 2
  area := fun g => if g = 1 then 5 else if g = 2 then 3 else 0

/-- The record of the partial-coverage run. -/
def partInfo : CountyInfo Nat :=
  { GEOID := "21001", NAME := "Adair", STATEFP := "21", geometry := 1,
    coverage_ratio := 3/5, is_full := false, area_sq_km := 61605000000 }

/-- The partial-coverage run. -/
theorem part_run :
    analyze_counties partEngine "21" 0 [touchCounty] = Except.ok [partInfo] := by
  have h1 : analyzeLoop partEngine 0 [touchCounty] = Except.ok [partInfo] := by
    simp [analyzeLoop, partEngine, touchCounty, partInfo]
    norm_num
  have h0 : List.filter (fun c => c.STATEFP == "21") [touchCounty] = [touchCounty] := by
    simp [touchCounty]
  unfold analyze_counties
  rw [h0, h1]
  simp [sortCounties]

/-- Engine of the overflow run: county area 5, intersection area 10, a
ratio of 2 as a degenerate geometry can produce. -/
def overEngine : GeoEngine Nat where
  intersects := fun _ _ => true
  intersection := fun _ _ => 2
  area := fun g => if g = 1 then 5 else if g = 2 then 10 else 0

/-- The record of the overflow run: ratio 2, far above 1, unclamped. -/
def overInfo : CountyInfo Nat :=
  { GEOID := "21001", NAME := "Adair", STATEFP := "21", geometry := 1,
    coverage_ratio := 2, is_full := true, area_sq_km := 61605000000 }

/-- The overflow run. -/
theorem over_run :
    analyze_counties overEngine "21" 0 [touchCounty] = Except.ok [overInfo] := by
  have h1 : analyzeLoop overEngine 0 [touchCounty] = Except.ok [overInfo] := by
    simp [analyzeLoop, overEngine, touchCounty, overInfo]
    norm_num
  have h0 : List.filter (fun c => c.STATEFP == "21") [touchCounty] = [touchCounty] := by
    simp [touchCounty]
  unfold analyze_counties
  rw [h0, h1]
  simp [sortCounties]

/-- Engine of the degenerate-area run: every area is 0, intersects holds. -/
def zeroEngine : GeoEngine Nat where
  intersects := fun _ _ => true
  intersection := fun _ _ => 2
  area := fun _ => 0

/-- The degenerate-area run aborts with the division-by-zero error. -/
theorem zero_run :
    analyze_counties zeroEngine "21" 0 [touchCounty] =
      Except.error "ZeroDivisionError: float division by zero" := by
  have h1 : analyzeLoop zeroEngine 0 [touchCounty] =
      Except.error "ZeroDivisionError: float division by zero" := by
    simp [analyzeLoop, zeroEngine, touchCounty]
  have h0 : List.filter (fun c => c.STATEFP == "21") [touchCounty] = [touchCounty] := by
    simp [touchCounty]
  unfold analyze_counties
  rw [h0, h1]

/-- Engine of the near-full run: county area 50000, intersection area
47501, ratio 0.95002, just over the 0.95 threshold. -/
def fullEngine : GeoEngine Nat where
  intersects := fun _ _ => true
  intersection := fun _ _ => 2
  area := fun g => if g = 1 then 50000 else if g = 2 then 47501 else 0

/-- The record of the near-full run. -/
def fullInfo : CountyInfo Nat :=
  { GEOID := "21001", NAME := "Adair", STATEFP := "21", geometry := 1,
    coverage_ratio := 47501/50000, is_full := true, area_sq_km := 616050000000000 }

/-- The near-full run. -/
theorem full_run :
    analyze_counties fullEngine "21" 0 [touchCounty] = Except.ok [fullInfo] := by
  have h1 : analyzeLoop fullEngine 0 [touchCounty] = Except.ok [fullInfo] := by
    simp [analyzeLoop, fullEngine, touchCounty, fullInfo]
    norm_num
  have h0 : List.filter (fun c => c.STATEFP == "21") [touchCounty] = [touchCounty] := by
    simp [touchCounty]
  unfold analyze_counties
  rw [h0, h1]
  simp [sortCounties]

/-- The report entry of the near-full run: label "full", displayed ratio
exactly 0.95 after rounding to four decimal places. -/
def entryFull : ReportCounty :=
  { name := "Adair", geoid := "21001", coverage_ratio := 19/20,
    type := "full", area_sq_km := 616050000000000 }

/-- First element of the tie pair: name "Scott", ratio 1/2. -/
def tieFirst : CountyInfo Nat :=
  { GEOID := "21209", NAME := "Scott", STATEFP := "21", geometry := 1,
    coverage_ratio := 1/2, is_full := false, area_sq_km := 1 }

/-- Second element of the tie pair: name "Clark", ratio 1/2. -/
def tieSecond : CountyInfo Nat :=
  { GEOID := "21049", NAME := "Clark", STATEFP := "21", geometry := 1,
    coverage_ratio := 1/2, is_full := false, area_sq_km := 1 }

/-- The stable sort keeps the tie pair in input order, name-descending. -/
theorem tie_sort : sortCounties [tieFirst, tieSecond] = [tieFirst, tieSecond] := by
  have hsub : [tieFirst, tieSecond].Sublist (sortCounties [tieFirst, tieSecond]) := by
    apply sortCounties_stable
    · exact List.Sublist.refl _
    · simp [tieFirst, tieSecond]
  refine (hsub.eq_of_length ?_).symm
  simp [sortCounties, List.length_mergeSort]

/-- A Fayette-named feature, arbitrary geometry. -/
def fayetteFeature : Feature Nat := { NAME := "Fayette", geometry := 7 }

/-- A Madison-named feature with the same geometry as the Fayette one. -/
def madisonFeature : Feature Nat := { NAME := "Madison", geometry := 7 }

/-- C1 counterexample: the claim "a county with zero-area intersection is
excluded from the result" is false. In the boundary-touch run the
intersection of the county with the district has area 0, yet the engine
(which filters on shapely's `intersects`, true for boundary contact)
produces a record for it. -/
theorem claim1_counterexample :
    touchEngine.area (touchEngine.intersection touchCounty.geometry 0) = 0 ∧
    analyze_counties touchEngine "21" (0 : Nat) [touchCounty] = Except.ok [touchInfo] ∧
    touchInfo.GEOID = touchCounty.GEOID :=
  ⟨by simp [touchEngine, touchCounty], touch_run, rfl⟩

/-- C1 (amended): a successful run returns exactly one record — the
`mkInfo` record — per candidate county of the district's state whose
geometry satisfies the engine's `intersects` predicate (boundary-or-
interior contact), and no record for any other county; zero-area touching
counties are included with coverage ratio 0, not excluded. -/
theorem claim1_one_record_per_intersecting_county (E : GeoEngine ρ) (fips : String)
    (d : ρ) (cs : List (County ρ)) (r : List (CountyInfo ρ))
    (h : analyze_counties E fips d cs = Except.ok r) :
    r.Perm (((cs.filter (fun c => c.STATEFP == fips)).filter
      (fun c => E.intersects c.geometry d)).map (mkInfo E d)) :=
  analyze_counties_ok E fips d cs r h

/-- C1 witness: the amended theorem applied to the partial-coverage run. -/
theorem claim1_witness :
    [partInfo].Perm ((([touchCounty].filter (fun c => c.STATEFP == "21")).filter
      (fun c => partEngine.intersects c.geometry 0)).map (mkInfo partEngine 0)) :=
  claim1_one_record_per_intersecting_county partEngine "21" 0 [touchCounty] [partInfo]
    part_run

/-- C2 counterexample: the claim "the threshold is a parameter the caller
may set to any boundary value" is false. The partial-coverage run yields a
record with ratio 3/5 labelled not-full, while the spec's classification
rule at a caller-chosen threshold 1/2 labels ratio 3/5 full: the code's
label is not a function of any caller-supplied threshold, the literal 0.95
is hard-coded at line 148. -/
theorem claim2_counterexample :
    analyze_counties partEngine "21" (0 : Nat) [touchCounty] = Except.ok [partInfo] ∧
    partInfo.coverage_ratio = 3/5 ∧ partInfo.is_full = false ∧
    classify_spec (1/2) (3/5) = true :=
  ⟨part_run, rfl, rfl, by norm_num [classify_spec]⟩

/-- C2 (amended): every produced record is classified full exactly when
its coverage ratio strictly exceeds the hard-coded 0.95; no caller-
settable threshold exists in the code. -/
theorem claim2_threshold_hardcoded (E : GeoEngine ρ) (fips : String) (d : ρ)
    (cs : List (County ρ)) (r : List (CountyInfo ρ))
    (h : analyze_counties E fips d cs = Except.ok r) (i : CountyInfo ρ) (hi : i ∈ r) :
    i.is_full = decide ((95 : ℚ) / 100 < i.coverage_ratio) := by
  rcases analyze_counties_mem E fips d cs r h i hi with ⟨c, _, _, _, _, hic⟩
  rw [hic]
  rfl

/-- C2 witness: the amended theorem applied to the partial-coverage run. -/
theorem claim2_witness :
    partInfo.is_full = decide ((95 : ℚ) / 100 < partInfo.coverage_ratio) :=
  claim2_threshold_hardcoded partEngine "21" 0 [touchCounty] [partInfo] part_run partInfo
    (by simp)

/-- C3 counterexample: the claim "entries with equal coverage_ratio are
ordered by county name ascending" is false. Sorting the tie pair
(Scott before Clark in the input, equal ratios) leaves Scott first, so the
output is not pairwise ordered by (ratio descending, then name
ascending). -/
theorem claim3_counterexample :
    sortCounties [tieFirst, tieSecond] = [tieFirst, tieSecond] ∧
    tieFirst.coverage_ratio = tieSecond.coverage_ratio ∧
    ¬ ((sortCounties [tieFirst, tieSecond]).Pairwise
        (fun a b => b.coverage_ratio < a.coverage_ratio ∨
          (a.coverage_ratio = b.coverage_ratio ∧ a.NAME ≤ b.NAME))) := by
  refine ⟨tie_sort, rfl, ?_⟩
  rw [tie_sort]
  intro hp
  have h1 := (List.pairwise_cons.mp hp).1 tieSecond (by simp)
  rcases h1 with h3 | ⟨h4, h5⟩
  · simp [tieFirst, tieSecond] at h3
  · have h6 : ¬ ("Scott" ≤ "Clark") := by
      rw [String.le_iff_toList_le]
      decide
    exact h6 h5

/-- C3 (amended): the report order is coverage ratio descending, produced
by a stable sort: it is a permutation of the input, pairwise descending in
ratio, and any pair already in weakly descending ratio order — ties
included — keeps its input order; ties are NOT reordered by county name.
Determinism holds because the sort is a pure function of the input. -/
theorem claim3_sort_stable_not_by_name (l : List (CountyInfo ρ)) :
    (sortCounties l).Perm l ∧
    (sortCounties l).Pairwise (fun a b => b.coverage_ratio ≤ a.coverage_ratio) ∧
    ∀ a b, [a, b].Sublist l → b.coverage_ratio ≤ a.coverage_ratio →
      [a, b].Sublist (sortCounties l) :=
  ⟨sortCounties_perm l, sortCounties_sorted l,
   fun a b h1 h2 => sortCounties_stable l a b h1 h2⟩

/-- C3 witness: the amended theorem applied to the tie pair. -/
theorem claim3_witness :
    [tieFirst, tieSecond].Sublist (sortCounties [tieFirst, tieSecond]) :=
  (claim3_sort_stable_not_by_name [tieFirst, tieSecond]).2.2 tieFirst tieSecond
    (List.Sublist.refl _) (by norm_num [tieFirst, tieSecond])

/-- C4 counterexample: both halves of the claim fail. The boundary-touch
run produces a record with coverage ratio 0 (not strictly positive), and
the overflow run produces a record with ratio 2 that is classified and
written to the report entry unclamped (the entry carries 2, not 1.0). -/
theorem claim4_counterexample :
    analyze_counties touchEngine "21" (0 : Nat) [touchCounty] = Except.ok [touchInfo] ∧
    touchInfo.coverage_ratio = 0 ∧
    analyze_counties overEngine "21" (0 : Nat) [touchCounty] = Except.ok [overInfo] ∧
    overInfo.coverage_ratio = 2 ∧ overInfo.is_full = true ∧
    reportEntry overInfo =
      { name := "Adair", geoid := "21001", coverage_ratio := 2,
        type := "full", area_sq_km := 61605000000 } := by
  refine ⟨touch_run, rfl, over_run, rfl, rfl, ?_⟩
  simp [reportEntry, overInfo]
  constructor <;> norm_num [round_to, round_half_even]

/-- C4 (amended): every produced record's coverage ratio is exactly the
intersection area divided by the (nonzero) county area — unclamped and
unchecked: it is 0 for a zero-area intersection and may exceed 1. -/
theorem claim4_ratio_unclamped (E : GeoEngine ρ) (fips : String) (d : ρ)
    (cs : List (County ρ)) (r : List (CountyInfo ρ))
    (h : analyze_counties E fips d cs = Except.ok r) (i : CountyInfo ρ) (hi : i ∈ r) :
    i.coverage_ratio =
      E.area (E.intersection i.geometry d) / E.area i.geometry ∧
    E.area i.geometry ≠ 0 := by
  rcases analyze_counties_mem E fips d cs r h i hi with ⟨c, _, _, _, hz, hic⟩
  rw [hic]
  exact ⟨rfl, hz⟩

/-- C4 witness: the amended theorem applied to the partial-coverage run. -/
theorem claim4_witness :
    partInfo.coverage_ratio =
      partEngine.area (partEngine.intersection partInfo.geometry 0) /
        partEngine.area partInfo.geometry ∧
    partEngine.area partInfo.geometry ≠ 0 :=
  claim4_ratio_unclamped partEngine "21" 0 [touchCounty] [partInfo] part_run partInfo
    (by simp)

/-- C5 counterexample: the claim "a zero-area county is excluded from the
result set with a warning and no division by zero occurs" is false: in the
degenerate-area run the county has computed area 0 and intersects, and the
whole analysis aborts with a ZeroDivisionError instead of returning a
result set without that county. -/
theorem claim5_counterexample :
    zeroEngine.area touchCounty.geometry = 0 ∧
    analyze_counties zeroEngine "21" (0 : Nat) [touchCounty] =
      Except.error "ZeroDivisionError: float division by zero" :=
  ⟨rfl, zero_run⟩

/-- C5 (amended): a state-matching candidate county whose computed area is
zero and whose geometry intersects the district makes the whole analysis
abort with a ZeroDivisionError; there is no exclusion and no warning. -/
theorem claim5_zero_area_aborts (E : GeoEngine ρ) (fips : String) (d : ρ)
    (c : County ρ) (cs : List (County ρ))
    (h1 : (c.STATEFP == fips) = true)
    (h2 : E.intersects c.geometry d = true)
    (h3 : E.area c.geometry = 0) :
    analyze_counties E fips d (c :: cs) =
      Except.error "ZeroDivisionError: float division by zero" := by
  unfold analyze_counties
  have hf : List.filter (fun x => x.STATEFP == fips) (c :: cs) =
      c :: List.filter (fun x => x.STATEFP == fips) cs := by
    simp [List.filter_cons, h1]
  rw [hf]
  have hl : analyzeLoop E d (c :: List.filter (fun x => x.STATEFP == fips) cs) =
      Except.error "ZeroDivisionError: float division by zero" := by
    simp [analyzeLoop, h2, h3]
  rw [hl]

/-- C5 witness: the amended theorem applied to the degenerate-area run. -/
theorem claim5_witness :
    ((touchCounty.STATEFP == "21") = true) ∧
    zeroEngine.intersects touchCounty.geometry 0 = true ∧
    zeroEngine.area touchCounty.geometry = 0 ∧
    analyze_counties zeroEngine "21" (0 : Nat) [touchCounty] =
      Except.error "ZeroDivisionError: float division by zero" :=
  ⟨rfl, rfl, rfl, claim5_zero_area_aborts zeroEngine "21" 0 touchCounty [] rfl rfl rfl⟩

/-- C6 counterexample: the claim "a threshold outside (0, 1] makes report
building signal ThresholdOutOfRange" is false of the code. At threshold 2
the spec-side checked builder signals the error, but the code's report
builder takes no threshold at all and unconditionally returns a report: no
validation exists and no error can be signalled. -/
theorem claim6_counterexample :
    build_report_spec "KY-06" ([] : List (CountyInfo Nat)) 2 =
      Except.error "ThresholdOutOfRange" ∧
    save_county_report "KY-06" ([] : List (CountyInfo Nat)) =
      { district := "KY-06", total_counties := 0, full_counties := 0,
        partial_counties := 0, counties := [] } := by
  constructor
  · norm_num [build_report_spec]
  · rfl

/-- C6 (amended): no threshold validation exists anywhere: the report
builder takes no threshold and unconditionally succeeds with the counts
and entries of its input, and the only error the analysis ever signals is
the division-by-zero error — never ThresholdOutOfRange. -/
theorem claim6_no_threshold_check :
    (∀ (ρ : Type) (code : String) (cs : List (CountyInfo ρ)),
      save_county_report code cs =
        { district := code, total_counties := cs.length,
          full_counties := (cs.filter (fun c => c.is_full)).length,
          partial_counties := (cs.filter (fun c => !c.is_full)).length,
          counties := cs.map reportEntry }) ∧
    (∀ (ρ : Type) (E : GeoEngine ρ) (fips : String) (d : ρ) (cs : List (County ρ))
        (e : String), analyze_counties E fips d cs = Except.error e →
      e = "ZeroDivisionError: float division by zero") := by
  constructor
  · intro ρ code cs
    rfl
  · intro ρ E fips d cs e h
    unfold analyze_counties at h
    match hl : analyzeLoop E d (cs.filter (fun c => c.STATEFP == fips)) with
    | Except.ok l => rw [hl] at h; simp at h
    | Except.error e2 =>
      rw [hl] at h
      simp only [Except.error.injEq] at h
      rw [← h]
      exact analyzeLoop_error E d _ e2 hl

/-- C6 witness: the amended theorem applied to a one-record report and to
the degenerate-area run's error. -/
theorem claim6_witness :
    save_county_report "KY-06" [touchInfo] =
      { district := "KY-06", total_counties := 1, full_counties := 0,
        partial_counties := 1, counties := [reportEntry touchInfo] } ∧
    "ZeroDivisionError: float division by zero" =
      "ZeroDivisionError: float division by zero" :=
  ⟨claim6_no_threshold_check.1 Nat "KY-06" [touchInfo],
   claim6_no_threshold_check.2 Nat zeroEngine "21" 0 [touchCounty] _ zero_run⟩

/-- C7: in every report the count of counties labelled full plus the count
labelled partial equals the total intersecting-county count. -/
theorem claim7_counts_consistent (code : String) (cs : List (CountyInfo ρ)) :
    (save_county_report code cs).full_counties +
      (save_county_report code cs).partial_counties =
      (save_county_report code cs).total_counties := by
  simp only [save_county_report]
  induction cs with
  | nil => rfl
  | cons a t ih =>
    by_cases h : a.is_full <;> simp [List.filter, h, ← ih] <;> omega

/-- C8: on an empty county collection the engine returns an empty result
set, not an error, and the report over it has total_counties 0. -/
theorem claim8_empty_input (E : GeoEngine ρ) (fips : String) (d : ρ) (code : String) :
    analyze_counties E fips d [] = Except.ok [] ∧
    (save_county_report code ([] : List (CountyInfo ρ))).total_counties = 0 := by
  constructor
  · unfold analyze_counties
    simp [analyzeLoop, sortCounties]
  · rfl

/-- C9 counterexample: the claim "no county is ever included or excluded
by membership in a fixed, hard-coded county list" is false of the
repository's extraction scripts: with identical geometries, the
Fayette-named feature is kept and the Madison-named feature is dropped by
`extract_exact_counties`, purely by name membership in the hard-coded
KY-06 list. -/
theorem claim9_counterexample :
    extract_exact_counties [fayetteFeature] = [fayetteFeature] ∧
    extract_exact_counties [madisonFeature] = [] ∧
    fayetteFeature.geometry = madisonFeature.geometry := by
  refine ⟨?_, ?_, rfl⟩ <;>
    simp [extract_exact_counties, fayetteFeature, madisonFeature, KY06_COUNTIES]

/-- C9 (amended): the core engine includes a county only by the computed
geometric intersects test, but the extraction scripts select features
exactly by membership of the NAME in the hard-coded KY-06 list, with no
geometric test. -/
theorem claim9_geometry_vs_hardcoded_list :
    (∀ (ρ : Type) (E : GeoEngine ρ) (fips : String) (d : ρ) (cs : List (County ρ))
        (r : List (CountyInfo ρ)), analyze_counties E fips d cs = Except.ok r →
      ∀ i ∈ r, E.intersects i.geometry d = true) ∧
    (∀ (ρ : Type) (fs : List (Feature ρ)) (f : Feature ρ),
      f ∈ extract_exact_counties fs ↔ f ∈ fs ∧ KY06_COUNTIES.contains f.NAME = true) := by
  constructor
  · intro ρ E fips d cs r h i hi
    rcases analyze_counties_mem E fips d cs r h i hi with ⟨c, _, _, hint, _, hic⟩
    rw [hic]
    exact hint
  · intro ρ fs f
    constructor
    · intro hf
      rcases List.mem_filter.mp hf with ⟨h1, h2⟩
      exact ⟨h1, h2⟩
    · intro hf
      exact List.mem_filter.mpr ⟨hf.1, hf.2⟩

/-- C9 witness: the amended theorem applied to the partial-coverage run
and to the Fayette feature. -/
theorem claim9_witness :
    partEngine.intersects partInfo.geometry (0 : Nat) = true ∧
    fayetteFeature ∈ extract_exact_counties [fayetteFeature] :=
  ⟨claim9_geometry_vs_hardcoded_list.1 Nat partEngine "21" 0 [touchCounty] [partInfo]
      part_run partInfo (by simp),
   (claim9_geometry_vs_hardcoded_list.2 Nat [fayetteFeature] fayetteFeature).mpr
      ⟨by simp, by simp [fayetteFeature, KY06_COUNTIES]⟩⟩

/-- C10: report entries are the records mapped through `reportEntry`; for
every record of a run, the entry's label is decided on the unrounded
ratio (full exactly when it strictly exceeds 0.95) while the entry's
ratio field is the ratio rounded to 4 decimal places; and in the
near-full run (ratio 47501/50000 = 0.95002) the entry is labelled "full"
with reported ratio exactly 19/20 = 0.95. -/
theorem claim10_label_from_unrounded_ratio :
    (∀ (ρ : Type) (code : String) (cs : List (CountyInfo ρ)),
      (save_county_report code cs).counties = cs.map reportEntry) ∧
    (∀ (ρ : Type) (E : GeoEngine ρ) (fips : String) (d : ρ) (cs : List (County ρ))
        (r : List (CountyInfo ρ)), analyze_counties E fips d cs = Except.ok r →
      ∀ i ∈ r,
        (reportEntry i).type =
          (if (95 : ℚ) / 100 < i.coverage_ratio then "full" else "partial") ∧
        (reportEntry i).coverage_ratio = round_to i.coverage_ratio 4) ∧
    analyze_counties fullEngine "21" (0 : Nat) [touchCounty] = Except.ok [fullInfo] ∧
    fullInfo.coverage_ratio = 47501/50000 ∧
    reportEntry fullInfo = entryFull ∧
    entryFull.type = "full" ∧
    entryFull.coverage_ratio = 19/20 ∧
    (19 : ℚ)/20 = 95/100 := by
  refine ⟨?_, ?_, full_run, rfl, ?_, rfl, rfl, by norm_num⟩
  · intro ρ code cs
    rfl
  · intro ρ E fips d cs r h i hi
    rcases analyze_counties_mem E fips d cs r h i hi with ⟨c, _, _, _, _, hic⟩
    rw [hic]
    constructor
    · simp only [reportEntry, mkInfo]
      by_cases hlt : (95 : ℚ) / 100 <
          E.area (E.intersection c.geometry d) / E.area c.geometry <;>
        simp [hlt]
    · rfl
  · simp [reportEntry, fullInfo, entryFull]
    constructor <;> norm_num [round_to, round_half_even]

/-- C10 witness: the theorem's universal parts applied to the near-full
run and its record. -/
theorem claim10_witness :
    (save_county_report "KY-06" [fullInfo]).counties = [fullInfo].map reportEntry ∧
    (reportEntry fullInfo).type =
      (if (95 : ℚ) / 100 < fullInfo.coverage_ratio then "full" else "partial") ∧
    (reportEntry fullInfo).coverage_ratio = round_to fullInfo.coverage_ratio 4 :=
  ⟨claim10_label_from_unrounded_ratio.1 Nat "KY-06" [fullInfo],
   (claim10_label_from_unrounded_ratio.2.1 Nat fullEngine "21" 0 [touchCounty] [fullInfo]
      full_run fullInfo (by simp)).1,
   (claim10_label_from_unrounded_ratio.2.1 Nat fullEngine "21" 0 [touchCounty] [fullInfo]
      full_run fullInfo (by simp)).2⟩

end MapGen
